import Mathlib

/-!
Verification of the parking-lot ticket core: the ticket data model
(internal/model/model.go), the service operations CreateTicket, GetTicket and
CalculateCharge (internal/service, 15-minute-increment version), and the exit
handler PostExit (internal/handler/parking.go). Durations and timestamps are
modelled in nanoseconds (Go's time.Duration unit); Go float64 arithmetic in the
billing routine is modelled exactly over ℚ, and the monetary float32 values
(all small multiples of 2.5) are likewise modelled in ℚ.
-/

namespace ParkingLot

/-- Ticket status string constant from internal/model/model.go ("in"). -/
def TicketStatusIn : String := "in"

/-- Ticket status string constant from internal/model/model.go ("out"). -/
def TicketStatusOut : String := "out"

/-- ParkingTicket record from internal/model/model.go. The Go `TicketStatus`
field is a string whose zero value is `""`; `EntryTime` is a timestamp in
nanoseconds; `Charge` is modelled as an exact rational. -/
structure ParkingTicket where
  ticketID : String
  plate : String
  parkingLot : Int
  entryTime : Int
  status : String
  charge : ℚ
  deriving DecidableEq, Repr

/-- Go `duration.Minutes()`: a nanosecond duration expressed in minutes. -/
def durationMinutes (d : Int) : ℚ := (d : ℚ) / 60000000000

/-- Threshold for zero charge in CalculateCharge: one microsecond in minutes,
`(1.0e-6) / 60.0`. -/
def zeroChargeThresholdMinutes : ℚ := 1 / 60000000

/-- Boundary epsilon in CalculateCharge: one millisecond in minutes,
`0.001 / 60.0`. -/
def boundaryEpsilonMinutes : ℚ := 1 / 60000

/-- Go `math.Round`: round to the nearest integer, ties away from zero. -/
def goRound (x : ℚ) : Int := if x < 0 then -⌊-x + 1 / 2⌋ else ⌊x + 1 / 2⌋

/-- CalculateCharge from the 15-minute-increment version of the service
(internal/service): given the elapsed duration `d = now - entryTime` in
nanoseconds, returns the pair (whole elapsed minutes, charge). -/
def CalculateCharge (d : Int) : Int × ℚ :=
  if durationMinutes d < zeroChargeThresholdMinutes then (0, 0)
  else
    let adjustedMinutes : ℚ :=
      if durationMinutes d - boundaryEpsilonMinutes < 0 then 0
      else durationMinutes d - boundaryEpsilonMinutes
    let increments0 : Int := ⌈adjustedMinutes / 15⌉
    let numberOf15MinIncrements : Int :=
      if increments0 = 0 ∧ zeroChargeThresholdMinutes ≤ durationMinutes d then 1
      else increments0
    (goRound (durationMinutes d), (numberOf15MinIncrements : ℚ) * (5 / 2))

/-- A successful write against the ticket store (DynamoDB in the source):
either a PutItem of a full record or a DeleteItem of a key. -/
inductive StoreWrite where
  | put (t : ParkingTicket)
  | delete (id : String)
  deriving DecidableEq, Repr

/-- Result of CreateTicket: the generated id, the ticket returned to the
caller and the successful store writes performed. -/
structure CreateResult where
  ticketID : String
  ticket : ParkingTicket
  writes : List StoreWrite
  deriving DecidableEq, Repr

/-- CreateTicket (internal/service): builds the ticket from `plate`,
`parkingLot`, the freshly generated uuid and the current time, leaving the
Go zero values in the `Status` ("") and `Charge` (0) fields, then marshals and
stores it. `marshalOk` is the outcome of `marshalMap`, `putOk` the outcome of
the DynamoDB PutItem; on either failure the error is logged and the pair
(id, ticket) is returned anyway. -/
def CreateTicket (plate : String) (parkingLot : Int) (freshID : String)
    (now : Int) (marshalOk : Bool) (putOk : Bool) : CreateResult :=
  let ticket : ParkingTicket :=
    { ticketID := freshID, plate := plate, parkingLot := parkingLot,
      entryTime := now, status := "", charge := 0 }
  if marshalOk then
    if putOk then { ticketID := freshID, ticket := ticket,
                    writes := [StoreWrite.put ticket] }
    else { ticketID := freshID, ticket := ticket, writes := [] }
  else { ticketID := freshID, ticket := ticket, writes := [] }

/-- Outcome of the store read performed by GetTicket: the GetItem call can
fail, return no item, return an item that fails to unmarshal, or return a
well-formed record. -/
inductive ReadResult where
  | readError
  | missing
  | corrupt
  | item (t : ParkingTicket)
  deriving DecidableEq, Repr

/-- GetTicket (internal/service): a GetItem error, an absent item and an
unmarshal failure all return `(none, false)`; a well-formed record is returned
with `true`. -/
def GetTicket (r : ReadResult) : Option ParkingTicket × Bool :=
  match r with
  | ReadResult.readError => (none, false)
  | ReadResult.missing => (none, false)
  | ReadResult.corrupt => (none, false)
  | ReadResult.item t => (some t, true)

/-- Modelled from the spec: the implementation of service.UpdateTicket is not
among the sources (only its tests, its mock and its caller are). Per §4.2 the
updated record is persisted via a single store Put keyed by the ticket id; the
tests require that a marshal failure or a PutItem failure is returned as an
error and that on success PutItem is called with the marshalled ticket.
Returns (success flag, successful store writes). -/
def UpdateTicket (t : ParkingTicket) (marshalOk : Bool) (putOk : Bool) :
    Bool × List StoreWrite :=
  if marshalOk then
    if putOk then (true, [StoreWrite.put t]) else (false, [])
  else (false, [])

/-- Response of the exit handler: a 404 when the ticket is not found, a 500
when the update fails, or the 200 payload `(plate, parkingLot,
parkedDurationMinutes, charge)`. -/
inductive ExitOutcome where
  | notFound
  | updateFailed
  | ok (plate : String) (parkingLot : Int) (minutes : Int) (charge : ℚ)
  deriving DecidableEq, Repr

/-- Result of PostExit: the response and the successful store writes. -/
structure ExitResult where
  outcome : ExitOutcome
  writes : List StoreWrite
  deriving DecidableEq, Repr

/-- PostExit (internal/handler/parking.go): fetch the ticket; when not found
respond 404 without touching the store; otherwise compute
`(minutes, charge) = CalculateCharge(entryTime)` against the current time,
set `Status = TicketStatusOut` and `Charge = charge` on the fetched record,
persist it via UpdateTicket, and respond with plate, lot, minutes and
charge. -/
def PostExit (r : ReadResult) (now : Int) (marshalOk : Bool) (putOk : Bool) :
    ExitResult :=
  match GetTicket r with
  | (none, _) => { outcome := ExitOutcome.notFound, writes := [] }
  | (some ticket, _) =>
    let minutes : Int := (CalculateCharge (now - ticket.entryTime)).1
    let charge : ℚ := (CalculateCharge (now - ticket.entryTime)).2
    let updated : ParkingTicket :=
      { ticket with status := TicketStatusOut, charge := charge }
    match UpdateTicket updated marshalOk putOk with
    | (true, w) =>
      { outcome := ExitOutcome.ok ticket.plate ticket.parkingLot minutes charge,
        writes := w }
    | (false, w) => { outcome := ExitOutcome.updateFailed, writes := w }

/-! Helper lemmas about the billing computation. -/

/-- The zero-charge test `durationMinutes d < zeroChargeThresholdMinutes` holds
exactly for durations under 1000 nanoseconds (one microsecond). -/
lemma durationMinutes_lt_threshold_iff (d : Int) :
    durationMinutes d < zeroChargeThresholdMinutes ↔ d < 1000 := by
  unfold durationMinutes zeroChargeThresholdMinutes
  rw [div_lt_div_iff₀ (by norm_num) (by norm_num), one_mul]
  constructor
  · intro h
    have h2 : (d * 60000000 : Int) < 60000000000 := by exact_mod_cast h
    omega
  · intro h
    have h2 : (d * 60000000 : Int) < 60000000000 := by omega
    exact_mod_cast h2

/-- Durations under one microsecond take the zero-charge branch. -/
lemma calculateCharge_lt (d : Int) (h : d < 1000) : CalculateCharge d = (0, 0) := by
  unfold CalculateCharge
  rw [if_pos ((durationMinutes_lt_threshold_iff d).mpr h)]

/-- Closed form of the non-degenerate branch: for durations of at least one
microsecond the result is the rounded raw minutes and `max 1` of the ceiling
of the clamped adjusted minutes over 15, times 2.50. -/
lemma calculateCharge_ge (d : Int) (h : 1000 ≤ d) :
    CalculateCharge d =
      (goRound (durationMinutes d),
       ((max 1 ⌈(max 0 (durationMinutes d - boundaryEpsilonMinutes)) / 15⌉ : Int) : ℚ)
         * (5 / 2)) := by
  have hcond : ¬ durationMinutes d < zeroChargeThresholdMinutes := by
    rw [durationMinutes_lt_threshold_iff]
    omega
  have hthr : zeroChargeThresholdMinutes ≤ durationMinutes d := le_of_not_lt hcond
  unfold CalculateCharge
  rw [if_neg hcond]
  have hclamp : (if durationMinutes d - boundaryEpsilonMinutes < 0 then (0 : ℚ)
      else durationMinutes d - boundaryEpsilonMinutes)
      = max 0 (durationMinutes d - boundaryEpsilonMinutes) := by
    split_ifs with h1
    · exact (max_eq_left h1.le).symm
    · exact (max_eq_right (not_lt.mp h1)).symm
  simp only [hclamp]
  have hnn : 0 ≤ ⌈(max 0 (durationMinutes d - boundaryEpsilonMinutes)) / 15⌉ := by
    refine Int.ceil_nonneg ?_
    positivity
  have hfix : (if ⌈(max 0 (durationMinutes d - boundaryEpsilonMinutes)) / 15⌉ = 0
        ∧ zeroChargeThresholdMinutes ≤ durationMinutes d then (1 : Int)
      else ⌈(max 0 (durationMinutes d - boundaryEpsilonMinutes)) / 15⌉)
      = max 1 ⌈(max 0 (durationMinutes d - boundaryEpsilonMinutes)) / 15⌉ := by
    split_ifs with h1
    · have h2 := h1.1
      omega
    · rw [not_and] at h1
      have h2 : ⌈(max 0 (durationMinutes d - boundaryEpsilonMinutes)) / 15⌉ ≠ 0 :=
        fun h => h1 h hthr
      omega
  rw [hfix]

/-- PostExit on a readable record with both update steps succeeding: the
computed charge is written back on the fetched record and returned. -/
lemma postExit_item (tk : ParkingTicket) (now : Int) :
    PostExit (ReadResult.item tk) now true true =
      { outcome := ExitOutcome.ok tk.plate tk.parkingLot
          (CalculateCharge (now - tk.entryTime)).1
          (CalculateCharge (now - tk.entryTime)).2,
        writes := [StoreWrite.put
          { tk with status := TicketStatusOut,
                    charge := (CalculateCharge (now - tk.entryTime)).2 }] } := rfl

/-- The epsilon comparison `boundaryEpsilonMinutes < durationMinutes d` holds
exactly for durations over 1000000 nanoseconds (one millisecond). -/
lemma boundaryEpsilon_lt_iff (d : Int) :
    boundaryEpsilonMinutes < durationMinutes d ↔ 1000000 < d := by
  unfold durationMinutes boundaryEpsilonMinutes
  rw [div_lt_div_iff₀ (by norm_num) (by norm_num), one_mul]
  constructor
  · intro h
    have h2 : (60000000000 : Int) < d * 60000 := by exact_mod_cast h
    omega
  · intro h
    have h2 : (60000000000 : Int) < d * 60000 := by omega
    exact_mod_cast h2

/-! Claim theorems. -/

/-- C2 (code_bug evidence): CreateTicket("ABC-123", 123) leaves the status
field at the Go zero value "", which is not the open status "in" that the
claim and the repository's own test TestCreateTicket require. -/
theorem c2_createTicket_status_not_open :
    (CreateTicket "ABC-123" 123 "a-ticket-id" 0 true true).ticket.status = ""
      ∧ TicketStatusIn ≠ "" :=
  ⟨rfl, by decide⟩

/-- C3: a duration under one microsecond (1000 ns) yields elapsed minutes 0
and charge exactly 0, and any duration at or above the threshold is charged
at least one 2.50 increment. -/
theorem c3_threshold_and_minimum_charge (d : Int) :
    (d < 1000 → CalculateCharge d = (0, 0))
      ∧ (1000 ≤ d → 5 / 2 ≤ (CalculateCharge d).2) := by
  constructor
  · intro h
    exact calculateCharge_lt d h
  · intro h
    rw [calculateCharge_ge d h]
    have h1 : (1 : Int) ≤ max 1 ⌈(max 0 (durationMinutes d - boundaryEpsilonMinutes)) / 15⌉ :=
      le_max_left _ _
    have h2 : (1 : ℚ) ≤
        ((max 1 ⌈(max 0 (durationMinutes d - boundaryEpsilonMinutes)) / 15⌉ : Int) : ℚ) := by
      exact_mod_cast h1
    nlinarith

/-- C3 witness: 999 ns is under the threshold and charged 0; 1000 ns is at the
threshold and charged at least 2.50. -/
theorem c3_threshold_and_minimum_charge_witness :
    CalculateCharge 999 = (0, 0) ∧ (5 / 2 : ℚ) ≤ (CalculateCharge 1000).2 :=
  ⟨(c3_threshold_and_minimum_charge 999).1 (by decide),
   (c3_threshold_and_minimum_charge 1000).2 (by decide)⟩

/-- C5: CreateTicket returns the generated id and the full ticket record
whatever the outcomes of marshalling and of the store write; no failure is
surfaced to the caller. -/
theorem c5_createTicket_best_effort (plate : String) (lot : Int)
    (freshID : String) (now : Int) (marshalOk putOk : Bool) :
    (CreateTicket plate lot freshID now marshalOk putOk).ticketID = freshID
      ∧ (CreateTicket plate lot freshID now marshalOk putOk).ticket =
        { ticketID := freshID, plate := plate, parkingLot := lot,
          entryTime := now, status := "", charge := 0 } := by
  cases marshalOk <;> cases putOk <;> exact ⟨rfl, rfl⟩

/-- C6: a store-read error, a missing record and a record that fails to decode
all make PostExit answer not-found with no store write and no delete, and the
three results are identical. -/
theorem c6_close_failures_not_found (now : Int) (marshalOk putOk : Bool) :
    PostExit ReadResult.readError now marshalOk putOk
        = { outcome := ExitOutcome.notFound, writes := [] }
      ∧ PostExit ReadResult.missing now marshalOk putOk
        = { outcome := ExitOutcome.notFound, writes := [] }
      ∧ PostExit ReadResult.corrupt now marshalOk putOk
        = { outcome := ExitOutcome.notFound, writes := [] } :=
  ⟨rfl, rfl, rfl⟩

/-- C7: a successful Close writes back exactly one Put of the fetched record
with only the status and charge fields changed (id, plate, lot and entryTime
unchanged) and performs no delete. -/
theorem c7_close_frame (tk : ParkingTicket) (now : Int) :
    PostExit (ReadResult.item tk) now true true =
      { outcome := ExitOutcome.ok tk.plate tk.parkingLot
          (CalculateCharge (now - tk.entryTime)).1
          (CalculateCharge (now - tk.entryTime)).2,
        writes := [StoreWrite.put
          { ticketID := tk.ticketID, plate := tk.plate,
            parkingLot := tk.parkingLot, entryTime := tk.entryTime,
            status := TicketStatusOut,
            charge := (CalculateCharge (now - tk.entryTime)).2 }] } :=
  postExit_item tk now

/-- C8: Close never examines the stored status (the result is the same for
every stored status value), and each call computes its charge and minutes from
the original entryTime and that call's time only, so calls at two different
times settle against their respective times. -/
theorem c8_close_recomputes (tk : ParkingTicket) (s1 s2 : String)
    (now1 now2 : Int) :
    (PostExit (ReadResult.item { tk with status := s1 }) now1 true true).outcome
        = ExitOutcome.ok tk.plate tk.parkingLot
            (CalculateCharge (now1 - tk.entryTime)).1
            (CalculateCharge (now1 - tk.entryTime)).2
      ∧ (PostExit (ReadResult.item { tk with status := s2 }) now2 true true).outcome
        = ExitOutcome.ok tk.plate tk.parkingLot
            (CalculateCharge (now2 - tk.entryTime)).1
            (CalculateCharge (now2 - tk.entryTime)).2 :=
  ⟨rfl, rfl⟩

/-- C1 counterexample: 500000 ns (0.5 ms) is a positive elapsed time at or
above the negligibility threshold, the code charges one increment (2.50), but
the claimed formula ceil((elapsedMinutes - epsilon)/15) yields 0 increments
and hence charge 0. -/
theorem c1_counterexample :
    zeroChargeThresholdMinutes ≤ durationMinutes 500000
      ∧ (CalculateCharge 500000).2 = 5 / 2
      ∧ (⌈(durationMinutes 500000 - boundaryEpsilonMinutes) / 15⌉ : ℚ) * (5 / 2)
          = 0 := by
  have hd : durationMinutes 500000 = 1 / 120000 := by
    unfold durationMinutes
    norm_num
  have hsub : durationMinutes 500000 - boundaryEpsilonMinutes = -(1 / 120000) := by
    rw [hd]
    unfold boundaryEpsilonMinutes
    norm_num
  refine ⟨?_, ?_, ?_⟩
  · rw [hd]
    unfold zeroChargeThresholdMinutes
    norm_num
  · rw [calculateCharge_ge 500000 (by norm_num)]
    rw [hsub, max_eq_left (by norm_num : -(1 / 120000 : ℚ) ≤ 0)]
    rw [zero_div, Int.ceil_zero, max_eq_left (by norm_num : (0 : Int) ≤ 1)]
    norm_num
  · have hc : ⌈(durationMinutes 500000 - boundaryEpsilonMinutes) / 15⌉ = 0 := by
      rw [hsub, show (-(1 / 120000 : ℚ)) / 15 = -(1 / 1800000) by norm_num]
      rw [Int.ceil_eq_zero_iff, Set.mem_Ioc]
      constructor <;> norm_num
    rw [hc]
    norm_num

/-- C1 (amended): for every elapsed time strictly above the one-millisecond
epsilon, the charge is ceil((elapsedMinutes - epsilon)/15) increments of 2.50,
and the reported minutes are the rounded raw minutes. -/
theorem c1_charge_formula (d : Int) (h : 1000000 < d) :
    CalculateCharge d =
      (goRound (durationMinutes d),
       (⌈(durationMinutes d - boundaryEpsilonMinutes) / 15⌉ : ℚ) * (5 / 2)) := by
  have h1000 : 1000 ≤ d := by omega
  rw [calculateCharge_ge d h1000]
  have hpos : 0 < durationMinutes d - boundaryEpsilonMinutes :=
    sub_pos.mpr ((boundaryEpsilon_lt_iff d).mpr h)
  rw [max_eq_right hpos.le]
  have hceil : 1 ≤ ⌈(durationMinutes d - boundaryEpsilonMinutes) / 15⌉ := by
    have hq : 0 < (durationMinutes d - boundaryEpsilonMinutes) / 15 := by positivity
    have := Int.ceil_pos.mpr hq
    omega
  rw [max_eq_right hceil]

/-- C1 witness: an elapsed time of exactly 15.000 minutes (900000000000 ns) is
over the epsilon and is charged 2.50 — one increment, not two. -/
theorem c1_charge_formula_witness :
    (1000000 : Int) < 900000000000
      ∧ (CalculateCharge 900000000000).2 = 5 / 2 := by
  refine ⟨by norm_num, ?_⟩
  rw [c1_charge_formula 900000000000 (by norm_num)]
  show (⌈(durationMinutes 900000000000 - boundaryEpsilonMinutes) / 15⌉ : ℚ)
      * (5 / 2) = 5 / 2
  have hd : durationMinutes 900000000000 = 15 := by
    unfold durationMinutes
    norm_num
  have hc : ⌈(durationMinutes 900000000000 - boundaryEpsilonMinutes) / 15⌉ = 1 := by
    rw [hd]
    unfold boundaryEpsilonMinutes
    rw [show ((15 : ℚ) - 1 / 60000) / 15 = 899999 / 900000 by norm_num]
    rw [Int.ceil_eq_iff]
    norm_num
  rw [hc]
  norm_num

/-- C4 counterexample: for an entry time one minute in the future (elapsed
duration -60000000000 ns) the code reports elapsed minutes 0, while the
nearest-integer rounding of the raw elapsed minutes is -1. -/
theorem c4_counterexample :
    (CalculateCharge (-60000000000)).1 = 0
      ∧ goRound (durationMinutes (-60000000000)) = -1 := by
  have hd : durationMinutes (-60000000000) = -1 := by
    unfold durationMinutes
    norm_num
  constructor
  · rw [calculateCharge_lt (-60000000000) (by norm_num)]
  · rw [hd]
    unfold goRound
    rw [if_pos (by norm_num : (-1 : ℚ) < 0)]
    rw [show -(-1 : ℚ) + 1 / 2 = 3 / 2 by norm_num]
    rw [show ⌊(3 : ℚ) / 2⌋ = 1 from by rw [Int.floor_eq_iff]; norm_num]

/-- C4 (amended): for every nonnegative elapsed duration, the elapsed-minutes
value returned is the raw elapsed minutes rounded to the nearest integer, a
quantity defined without reference to the 15-minute billing increments. -/
theorem c4_minutes_rounded (d : Int) (h : 0 ≤ d) :
    (CalculateCharge d).1 = goRound (durationMinutes d) := by
  by_cases hd : d < 1000
  · rw [calculateCharge_lt d hd]
    have h0 : (0 : ℚ) ≤ durationMinutes d := by
      unfold durationMinutes
      positivity
    have hlt : durationMinutes d < 1 / 2 := by
      have := (durationMinutes_lt_threshold_iff d).mpr hd
      unfold zeroChargeThresholdMinutes at this
      linarith
    unfold goRound
    rw [if_neg (not_lt.mpr h0)]
    have hfl : ⌊durationMinutes d + 1 / 2⌋ = 0 := by
      rw [Int.floor_eq_zero_iff, Set.mem_Ico]
      constructor
      · linarith
      · linarith
    exact hfl.symm
  · push_neg at hd
    rw [calculateCharge_ge d hd]

/-- C4 witness: for an elapsed time of 1.5 minutes (90000000000 ns) the
returned minutes equal the rounded raw minutes (2, rounding half away from
zero). -/
theorem c4_minutes_rounded_witness :
    (0 : Int) ≤ 90000000000
      ∧ (CalculateCharge 90000000000).1 = goRound (durationMinutes 90000000000) :=
  ⟨by decide, c4_minutes_rounded 90000000000 (by decide)⟩

/-- C9: the charge is monotonically non-decreasing in the elapsed duration. -/
theorem c9_charge_monotone (d1 d2 : Int) (h : d1 ≤ d2) :
    (CalculateCharge d1).2 ≤ (CalculateCharge d2).2 := by
  by_cases h2 : d2 < 1000
  · rw [calculateCharge_lt d1 (by omega), calculateCharge_lt d2 h2]
  · push_neg at h2
    rw [calculateCharge_ge d2 h2]
    have hb : (1 : Int) ≤ max 1 ⌈(max 0 (durationMinutes d2 - boundaryEpsilonMinutes)) / 15⌉ :=
      le_max_left _ _
    by_cases h1 : d1 < 1000
    · rw [calculateCharge_lt d1 h1]
      have hb2 : (1 : ℚ) ≤
          ((max 1 ⌈(max 0 (durationMinutes d2 - boundaryEpsilonMinutes)) / 15⌉ : Int) : ℚ) := by
        exact_mod_cast hb
      nlinarith
    · push_neg at h1
      rw [calculateCharge_ge d1 h1]
      have htm : durationMinutes d1 ≤ durationMinutes d2 := by
        unfold durationMinutes
        have hc : ((d1 : ℚ)) ≤ ((d2 : ℚ)) := by exact_mod_cast h
        gcongr
      have hA : ⌈(max 0 (durationMinutes d1 - boundaryEpsilonMinutes)) / 15⌉
          ≤ ⌈(max 0 (durationMinutes d2 - boundaryEpsilonMinutes)) / 15⌉ := by
        apply Int.ceil_le_ceil
        apply div_le_div_of_nonneg_right ?_ (by norm_num)
        exact max_le_max le_rfl (sub_le_sub_right htm _)
      have hM : max 1 ⌈(max 0 (durationMinutes d1 - boundaryEpsilonMinutes)) / 15⌉
          ≤ max 1 ⌈(max 0 (durationMinutes d2 - boundaryEpsilonMinutes)) / 15⌉ :=
        max_le_max le_rfl hA
      have hMq : ((max 1 ⌈(max 0 (durationMinutes d1 - boundaryEpsilonMinutes)) / 15⌉ : Int) : ℚ)
          ≤ ((max 1 ⌈(max 0 (durationMinutes d2 - boundaryEpsilonMinutes)) / 15⌉ : Int) : ℚ) := by
        exact_mod_cast hM
      nlinarith

/-- C9 witness: the charge for 1000 ns is at most the charge for one hour. -/
theorem c9_charge_monotone_witness :
    (1000 : Int) ≤ 3600000000000
      ∧ (CalculateCharge 1000).2 ≤ (CalculateCharge 3600000000000).2 :=
  ⟨by decide, c9_charge_monotone 1000 3600000000000 (by decide)⟩

/-- C10: a negative elapsed duration (entry time in the future) yields elapsed
minutes 0 and charge 0. -/
theorem c10_negative_duration_zero (d : Int) (h : d < 0) :
    CalculateCharge d = (0, 0) :=
  calculateCharge_lt d (by omega)

/-- C10 witness: an entry five nanoseconds in the future is charged nothing. -/
theorem c10_negative_duration_zero_witness :
    (-5 : Int) < 0 ∧ CalculateCharge (-5) = (0, 0) :=
  ⟨by decide, c10_negative_duration_zero (-5) (by decide)⟩

end ParkingLot
